import Mathlib

/-
Verification of the mangable comic-metadata service.

The Python handlers under src/app are embedded shallowly: database tables
become lists of records, SQLAlchemy queries become list operations, FastAPI
`HTTPException`s become an explicit error type, and external collaborators
(JWT decoding, sha256, bcrypt, the random key generator) are passed in as
function arguments or treated as inputs.  All definitions are executable.
-/

namespace Mangable

/-- A FastAPI `HTTPException`: status code plus detail message. -/
structure HTTPError where
  statusCode : Nat
  detail : String
  deriving DecidableEq

/-- The `users` table row (src/app/models/models.py, class `User`).
Identifiers are modelled as naturals. -/
structure User where
  id : Nat
  username : String
  email : String
  hashedPassword : String
  isActive : Bool
  isAdmin : Bool
  deriving DecidableEq

/-- The `api_keys` table row (src/app/models/models.py, class `ApiKey`).
Timestamps are modelled as integers. -/
structure ApiKey where
  id : Nat
  userId : Nat
  name : String
  keyHash : String
  keyPrefix : String
  isActive : Bool
  lastUsedAt : Option Int
  createdAt : Int
  expiresAt : Option Int
  deriving DecidableEq

/-- The state visible to the credential resolver: the `users` and
`api_keys` tables. -/
structure AuthDb where
  users : List User
  apiKeys : List ApiKey
  deriving DecidableEq

/-- `select(User).where(User.id == uid, User.is_active == True)` followed by
`scalar_one_or_none` (ids are unique, so the first match is the only one). -/
def findActiveUser (db : AuthDb) (uid : Nat) : Option User :=
  db.users.find? (fun u => u.id == uid && u.isActive)

/-- `get_current_user_from_token` (src/app/core/deps.py).  JWT decoding is
external (`python-jose`), so it is passed in: `decodeAccessToken tok` is
`none` when the token fails verification, and otherwise carries the
payload's `sub` claim (itself optional, as `payload.get("sub")` may be
absent). -/
def getCurrentUserFromToken (decodeAccessToken : String → Option (Option Nat))
    (db : AuthDb) (credentials : Option String) : Option User :=
  match credentials with
  | none => none
  | some tok =>
    match decodeAccessToken tok with
    | none => none
    | some payload =>
      match payload with
      | none => none
      | some userId => findActiveUser db userId

/-- `api_key_obj.expires_at and api_key_obj.expires_at < now`: an API key is
expired when it has an expiry timestamp lying strictly in the past. -/
def apiKeyExpired (k : ApiKey) (now : Int) : Bool :=
  match k.expiresAt with
  | none => false
  | some e => e < now

/-- `get_current_user_from_api_key` (src/app/core/deps.py).  The sha256
digest is external and passed in as `hashFn`.  Returns the resolved user
together with the database after the `last_used_at` touch that is committed
when an active, unexpired key matches. -/
def getCurrentUserFromApiKey (hashFn : String → String)
    (db : AuthDb) (now : Int) (apiKey : Option String) : Option User × AuthDb :=
  match apiKey with
  | none => (none, db)
  | some key =>
    if key == "" then (none, db)
    else
      let keyHash := hashFn key
      match db.apiKeys.find? (fun k => k.keyHash == keyHash && k.isActive) with
      | none => (none, db)
      | some apiKeyObj =>
        if apiKeyExpired apiKeyObj now then (none, db)
        else
          let db2 : AuthDb :=
            { db with
              apiKeys := db.apiKeys.map (fun k =>
                if k.id == apiKeyObj.id then { k with lastUsedAt := some now } else k) }
          (findActiveUser db2 apiKeyObj.userId, db2)

/-- `get_current_user` (src/app/core/deps.py): `user = token_user or
api_key_user`, rejecting with 401 when both are missing. -/
def getCurrentUser (tokenUser apiKeyUser : Option User) : Except HTTPError User :=
  match tokenUser with
  | some u => .ok u
  | none =>
    match apiKeyUser with
    | some u => .ok u
    | none => .error { statusCode := 401, detail := "Not authenticated" }

/-- Full resolution of one request carrying a bearer token and an API-key
header: both dependency functions run, then `get_current_user` combines
them.  The second component is the database after the key-resolution side
effect. -/
def resolveRequest (decodeFn : String → Option (Option Nat))
    (hashFn : String → String) (db : AuthDb) (now : Int)
    (bearer apiKey : Option String) : Except HTTPError User × AuthDb :=
  let tokenUser := getCurrentUserFromToken decodeFn db bearer
  let keyResult := getCurrentUserFromApiKey hashFn db now apiKey
  (getCurrentUser tokenUser keyResult.1, keyResult.2)

/-- Claim C1: for a request carrying both a bearer token and an API-key
header, if the token resolves to a valid active user then the resolved
principal is the token's user, whatever the key header resolves to; and if
neither credential resolves to a user the request is rejected with
HTTP 401 "Not authenticated". -/
theorem resolver_token_precedence_and_401
    (decodeFn : String → Option (Option Nat)) (hashFn : String → String)
    (db : AuthDb) (now : Int) (tok key : String) :
    (∀ u : User, getCurrentUserFromToken decodeFn db (some tok) = some u →
      (resolveRequest decodeFn hashFn db now (some tok) (some key)).1 = .ok u) ∧
    (getCurrentUserFromToken decodeFn db (some tok) = none →
      (getCurrentUserFromApiKey hashFn db now (some key)).1 = none →
      (resolveRequest decodeFn hashFn db now (some tok) (some key)).1 =
        .error { statusCode := 401, detail := "Not authenticated" }) := by
  constructor
  · intro u h
    simp only [resolveRequest, h, getCurrentUser]
  · intro h1 h2
    simp only [resolveRequest, h1, h2, getCurrentUser]

def demoUserOne : User :=
  { id := 1, username := "alice", email := "a@example.com",
    hashedPassword := "h1", isActive := true, isAdmin := false }

def demoUserTwo : User :=
  { id := 2, username := "bob", email := "b@example.com",
    hashedPassword := "h2", isActive := true, isAdmin := false }

def demoKeyForTwo : ApiKey :=
  { id := 7, userId := 2, name := "k", keyHash := "secret2", keyPrefix := "secret2",
    isActive := true, lastUsedAt := none, createdAt := 0, expiresAt := none }

def demoAuthDb : AuthDb :=
  { users := [demoUserOne, demoUserTwo], apiKeys := [demoKeyForTwo] }

/-- Always decodes to user 1; stands in for a JWT signed for user 1. -/
def demoDecode : String → Option (Option Nat) := fun _ => some (some 1)

/-- Identity stands in for the sha256 hex digest. -/
def demoHash : String → String := fun s => s

theorem resolver_token_precedence_and_401_witness :
    getCurrentUserFromToken demoDecode demoAuthDb (some "tok") = some demoUserOne ∧
    (getCurrentUserFromApiKey demoHash demoAuthDb 0 (some "secret2")).1 = some demoUserTwo ∧
    (resolveRequest demoDecode demoHash demoAuthDb 0 (some "tok") (some "secret2")).1 =
      .ok demoUserOne :=
  ⟨by decide, by decide,
    (resolver_token_precedence_and_401 demoDecode demoHash demoAuthDb 0 "tok" "secret2").1
      demoUserOne (by decide)⟩

/-- Claim C2: an API-key header whose hash matches a stored key resolves to
no principal whenever that key is inactive, or its expiry timestamp is in
the past, or its owning user is inactive — regardless of the correct hash
match.  The stored key's hash is unique (database unique constraint on
`key_hash`), and "owning user inactive" is phrased over every user row with
the owner's id since ids are unique. -/
theorem api_key_never_resolves_inactive_expired
    (hashFn : String → String) (db : AuthDb) (now : Int) (key : String)
    (k : ApiKey) (hmem : k ∈ db.apiKeys) (hhash : hashFn key = k.keyHash)
    (huniq : ∀ k2 ∈ db.apiKeys, k2.keyHash = k.keyHash → k2 = k)
    (hbad : k.isActive = false ∨ (∃ e, k.expiresAt = some e ∧ e < now) ∨
      (∀ u ∈ db.users, u.id = k.userId → u.isActive = false)) :
    (getCurrentUserFromApiKey hashFn db now (some key)).1 = none := by
  unfold getCurrentUserFromApiKey
  by_cases hkey : key == ""
  · simp [hkey]
  · simp only [hkey, Bool.false_eq_true, if_false]
    rcases hfind : db.apiKeys.find? (fun k2 => k2.keyHash == hashFn key && k2.isActive) with
      _ | kf
    · rw [hfind]
    · rw [hfind]
      have hp := List.find?_some hfind
      have hmemf := List.mem_of_find?_eq_some hfind
      simp only [Bool.and_eq_true, beq_iff_eq] at hp
      have hkf : kf = k := huniq kf hmemf (hp.1.trans hhash)
      subst hkf
      rcases hbad with hinact | ⟨e, he, helt⟩ | husers
      · simp [hinact] at hp
      · have hexp : apiKeyExpired kf now = true := by
          simp [apiKeyExpired, he, helt]
        simp [hexp]
      · by_cases hexp : apiKeyExpired kf now = true
        · simp [hexp]
        · simp only [hexp, if_false]
          change findActiveUser _ _ = none
          unfold findActiveUser
          apply List.find?_eq_none.2
          intro u hu
          have hu2 : u ∈ db.users := hu
          simp only [Bool.and_eq_true, beq_iff_eq, not_and]
          intro hid
          simp [husers u hu2 hid]

def demoRevokedKey : ApiKey :=
  { id := 9, userId := 1, name := "old", keyHash := "oldsecret", keyPrefix := "oldsecret",
    isActive := false, lastUsedAt := none, createdAt := 0, expiresAt := none }

def demoRevokedDb : AuthDb :=
  { users := [demoUserOne], apiKeys := [demoRevokedKey] }

theorem api_key_never_resolves_inactive_expired_witness :
    demoRevokedKey ∈ demoRevokedDb.apiKeys ∧
    demoHash "oldsecret" = demoRevokedKey.keyHash ∧
    demoRevokedKey.isActive = false ∧
    (getCurrentUserFromApiKey demoHash demoRevokedDb 0 (some "oldsecret")).1 = none :=
  ⟨by decide, by decide, by decide,
    api_key_never_resolves_inactive_expired demoHash demoRevokedDb 0 "oldsecret"
      demoRevokedKey (by decide) (by decide) (by decide) (Or.inl (by decide))⟩

/-- The `comics` table row (src/app/models/models.py, class `Comic`).
Timestamps and ids are integers/naturals; `community_rating` is a rational. -/
structure Comic where
  id : Nat
  title : String
  series : Option String
  alternateSeries : Option String
  number : Option String
  count : Option Int
  volume : Option Int
  alternateNumber : Option String
  alternateCount : Option Int
  summary : Option String
  notes : Option String
  year : Option Int
  month : Option Int
  day : Option Int
  publisher : Option String
  imprint : Option String
  writer : Option String
  penciller : Option String
  inker : Option String
  colorist : Option String
  letterer : Option String
  coverArtist : Option String
  editor : Option String
  translator : Option String
  genre : Option String
  tags : Option String
  web : Option String
  ageRating : Option String
  languageIso : Option String
  format : Option String
  isBw : Option Bool
  manga : Option String
  communityRating : Option Rat
  review : Option String
  pageCount : Option Int
  coverUrl : Option String
  coverImagePath : Option String
  isbn : Option String
  barcode : Option String
  seriesGroup : Option String
  createdAt : Int
  updatedAt : Int
  createdBy : Option Nat
  deriving DecidableEq

/-- Lower-cased character list of a string, for case-insensitive matching. -/
def lowerChars (s : String) : List Char :=
  s.toList.map Char.toLower

/-- Contiguous-infix test on character lists. -/
def hasInfix (pat : List Char) : List Char → Bool
  | [] => pat.isEmpty
  | c :: rest => pat.isPrefixOf (c :: rest) || hasInfix pat rest

/-- SQL `column ILIKE '%pat%'` on a NOT NULL text column: case-insensitive
substring match. -/
def ilikeContains (column pat : String) : Bool :=
  hasInfix (lowerChars pat) (lowerChars column)

/-- SQL `column ILIKE '%pat%'` on a nullable column: NULL never matches. -/
def ilikeContainsOpt (column : Option String) (pat : String) : Bool :=
  match column with
  | none => false
  | some s => ilikeContains s pat

/-- The `sort_by` whitelist of `list_comics`. -/
inductive SortBy
  | title
  | year
  | publisher
  | communityRating
  | createdAt
  deriving DecidableEq

/-- The `sort_order` values of `list_comics`. -/
inductive SortOrder
  | asc
  | desc
  deriving DecidableEq

/-- `SearchParams` (src/app/schemas/schemas.py). -/
structure SearchParams where
  q : Option String := none
  series : Option String := none
  publisher : Option String := none
  writer : Option String := none
  genre : Option String := none
  yearFrom : Option Int := none
  yearTo : Option Int := none
  language : Option String := none
  manga : Option String := none
  ageRating : Option String := none
  page : Nat := 1
  pageSize : Nat := 20
  sortBy : SortBy := .title
  sortOrder : SortOrder := .asc

/-- `if params.x:` on an optional string — Python truthiness: None and the
empty string are falsy. -/
def truthyStr : Option String → Bool
  | none => false
  | some s => !(s == "")

/-- `if params.x:` on an optional integer — Python truthiness: None and 0
are falsy. -/
def truthyInt : Option Int → Bool
  | none => false
  | some n => !(n == 0)

/-- One optional string-valued filter of `build_search_query`: it
contributes a predicate only when the parameter is truthy. -/
def strFilter (v : Option String) (mk : String → Comic → Bool) : List (Comic → Bool) :=
  match v with
  | none => []
  | some s => if s == "" then [] else [mk s]

/-- One optional integer-valued filter of `build_search_query`. -/
def intFilter (v : Option Int) (mk : Int → Comic → Bool) : List (Comic → Bool) :=
  match v with
  | none => []
  | some n => if n == 0 then [] else [mk n]

/-- `build_search_query` (src/app/api/comics.py): the list of filters, in
the order the source appends them. -/
def buildSearchQuery (p : SearchParams) : List (Comic → Bool) :=
  strFilter p.q (fun s c =>
    ilikeContains c.title s || ilikeContainsOpt c.series s ||
    ilikeContainsOpt c.summary s || ilikeContainsOpt c.writer s ||
    ilikeContainsOpt c.publisher s) ++
  strFilter p.series (fun s c => ilikeContainsOpt c.series s) ++
  strFilter p.publisher (fun s c => ilikeContainsOpt c.publisher s) ++
  strFilter p.writer (fun s c => ilikeContainsOpt c.writer s) ++
  strFilter p.genre (fun s c => ilikeContainsOpt c.genre s) ++
  intFilter p.yearFrom (fun n c =>
    match c.year with
    | none => false
    | some y => decide (n ≤ y)) ++
  intFilter p.yearTo (fun n c =>
    match c.year with
    | none => false
    | some y => decide (y ≤ n)) ++
  strFilter p.language (fun s c => c.languageIso == some s) ++
  strFilter p.manga (fun s c => c.manga == some s) ++
  strFilter p.ageRating (fun s c => c.ageRating == some s)

/-- A row satisfies `and_(*filters)`; when no filter is present the `where`
clause is omitted and every row matches. -/
def comicMatches (p : SearchParams) (c : Comic) : Bool :=
  (buildSearchQuery p).all (fun f => f c)

/-- Ordering on an optional sort column, ascending with NULLs last
(PostgreSQL default for `ORDER BY col ASC`). -/
def optLe {α : Type} (le : α → α → Bool) : Option α → Option α → Bool
  | none, none => true
  | none, some _ => false
  | some _, none => true
  | some a, some b => le a b

/-- `order_by` comparison for the whitelisted sort column, ascending. -/
def sortKeyLe (sb : SortBy) (a b : Comic) : Bool :=
  match sb with
  | .title => decide (a.title ≤ b.title)
  | .year => optLe (fun x y => decide (x ≤ y)) a.year b.year
  | .publisher => optLe (fun x y => decide (x ≤ y)) a.publisher b.publisher
  | .communityRating => optLe (fun x y => decide (x ≤ y)) a.communityRating b.communityRating
  | .createdAt => decide (a.createdAt ≤ b.createdAt)

/-- `asc(sort_col)` or `desc(sort_col)`. -/
def comicLe (p : SearchParams) (a b : Comic) : Bool :=
  match p.sortOrder with
  | .asc => sortKeyLe p.sortBy a b
  | .desc => sortKeyLe p.sortBy b a

/-- The data query's `ORDER BY`. -/
def sortComics (p : SearchParams) (l : List Comic) : List Comic :=
  l.mergeSort (comicLe p)

/-- `ComicListOut` (src/app/schemas/schemas.py): the projection returned by
the list endpoint. -/
structure ComicListOut where
  id : Nat
  title : String
  series : Option String
  number : Option String
  year : Option Int
  publisher : Option String
  coverUrl : Option String
  communityRating : Option Rat
  deriving DecidableEq

/-- `ComicListOut.model_validate(c)`. -/
def toComicListOut (c : Comic) : ComicListOut :=
  { id := c.id, title := c.title, series := c.series, number := c.number,
    year := c.year, publisher := c.publisher, coverUrl := c.coverUrl,
    communityRating := c.communityRating }

/-- `PaginatedComics` (src/app/schemas/schemas.py). -/
structure PaginatedComics where
  total : Nat
  page : Nat
  pageSize : Nat
  results : List ComicListOut
  deriving DecidableEq

/-- `list_comics` (src/app/api/comics.py): the count query
(`select(func.count(Comic.id))` under the same filters) plus the data query
(filters, `ORDER BY`, `OFFSET (page-1)*page_size`, `LIMIT page_size`). -/
def listComics (db : List Comic) (p : SearchParams) : PaginatedComics :=
  let filters := buildSearchQuery p
  let total := db.countP (fun c => filters.all (fun f => f c))
  let offset := (p.page - 1) * p.pageSize
  let comics :=
    ((sortComics p (db.filter (fun c => filters.all (fun f => f c)))).drop offset).take
      p.pageSize
  { total := total, page := p.page, pageSize := p.pageSize,
    results := comics.map toComicListOut }

/-- Claim C3: a list/search request counts all records matching the filters
as `total`, and its data query skips exactly `(page-1)*page_size` of the
sorted matching records and returns at most `page_size` of them: result `i`
is the sorted matching record at position `(page-1)*page_size + i`.  The
route validates `page ≥ 1` and `page_size ∈ [1,100]`. -/
theorem listComics_pagination (db : List Comic) (p : SearchParams)
    (hpage : 1 ≤ p.page) (hsize1 : 1 ≤ p.pageSize) (hsize2 : p.pageSize ≤ 100) :
    (listComics db p).total = (db.filter (comicMatches p)).length ∧
    (listComics db p).results.length ≤ p.pageSize ∧
    (listComics db p).results.length =
      min p.pageSize ((listComics db p).total - (p.page - 1) * p.pageSize) ∧
    ∀ i (hi : i < (listComics db p).results.length),
      ∃ hj : (p.page - 1) * p.pageSize + i <
          (sortComics p (db.filter (comicMatches p))).length,
        (listComics db p).results.get ⟨i, hi⟩ =
          toComicListOut ((sortComics p (db.filter (comicMatches p))).get
            ⟨(p.page - 1) * p.pageSize + i, hj⟩) := by
  have hsortlen : (sortComics p (db.filter (comicMatches p))).length =
      (db.filter (comicMatches p)).length := by
    simp [sortComics, List.length_mergeSort]
  have htotal : (listComics db p).total = (db.filter (comicMatches p)).length := by
    simp only [listComics, List.countP_eq_length_filter]
    rfl
  have hres : (listComics db p).results =
      (((sortComics p (db.filter (comicMatches p))).drop
        ((p.page - 1) * p.pageSize)).take p.pageSize).map toComicListOut := rfl
  have hlen : (listComics db p).results.length =
      min p.pageSize
        ((sortComics p (db.filter (comicMatches p))).length -
          (p.page - 1) * p.pageSize) := by
    rw [hres]
    simp [List.length_take, List.length_drop]
  refine ⟨htotal, ?_, ?_, ?_⟩
  · rw [hlen]
    exact Nat.min_le_left _ _
  · rw [hlen, htotal, hsortlen]
  · intro i hi
    have hlen2 : i < min p.pageSize
        ((sortComics p (db.filter (comicMatches p))).length -
          (p.page - 1) * p.pageSize) := hlen ▸ hi
    have hj : (p.page - 1) * p.pageSize + i <
        (sortComics p (db.filter (comicMatches p))).length := by
      rcases lt_min_iff.mp hlen2 with ⟨h1, h2⟩
      omega
    refine ⟨hj, ?_⟩
    rw [List.get_eq_getElem, List.get_eq_getElem]
    simp only [hres, List.getElem_map, List.getElem_take, List.getElem_drop]

/-- A comic record with only the mandatory title set (empty here); concrete
records below override individual fields. -/
def emptyComic : Comic :=
  { id := 0, title := "", series := none, alternateSeries := none, number := none,
    count := none, volume := none, alternateNumber := none, alternateCount := none,
    summary := none, notes := none, year := none, month := none, day := none,
    publisher := none, imprint := none, writer := none, penciller := none,
    inker := none, colorist := none, letterer := none, coverArtist := none,
    editor := none, translator := none, genre := none, tags := none, web := none,
    ageRating := none, languageIso := none, format := none, isBw := none,
    manga := none, communityRating := none, review := none, pageCount := none,
    coverUrl := none, coverImagePath := none, isbn := none, barcode := none,
    seriesGroup := none, createdAt := 0, updatedAt := 0, createdBy := none }

def pageTwoParams : SearchParams := { page := 2, pageSize := 1 }

def threeComics : List Comic :=
  [{ emptyComic with id := 1, title := "A" },
   { emptyComic with id := 2, title := "B" },
   { emptyComic with id := 3, title := "C" }]

theorem listComics_pagination_witness :
    1 ≤ pageTwoParams.page ∧ 1 ≤ pageTwoParams.pageSize ∧ pageTwoParams.pageSize ≤ 100 ∧
    (listComics threeComics pageTwoParams).total =
      (threeComics.filter (comicMatches pageTwoParams)).length ∧
    (listComics threeComics pageTwoParams).results.length ≤ pageTwoParams.pageSize :=
  ⟨by decide, by decide, by decide,
    (listComics_pagination threeComics pageTwoParams (by decide) (by decide) (by decide)).1,
    (listComics_pagination threeComics pageTwoParams (by decide) (by decide) (by decide)).2.1⟩

/-- The executable infix test agrees with `List.IsInfix`. -/
theorem hasInfix_iff (pat : List Char) (l : List Char) :
    hasInfix pat l = true ↔ pat <:+: l := by
  induction l with
  | nil =>
    simp [hasInfix, List.isEmpty_iff, List.infix_nil]
  | cons c rest ih =>
    simp [hasInfix, ih, List.isPrefixOf_iff_prefix, List.infix_cons_iff]

/-- `ilikeContains` is the case-insensitive substring relation. -/
theorem ilikeContains_iff (column pat : String) :
    ilikeContains column pat = true ↔ lowerChars pat <:+: lowerChars column := by
  simp [ilikeContains, hasInfix_iff]

/-- `ilikeContainsOpt` on a nullable column. -/
theorem ilikeContainsOpt_iff (column : Option String) (pat : String) :
    ilikeContainsOpt column pat = true ↔
      ∃ t, column = some t ∧ lowerChars pat <:+: lowerChars t := by
  cases column with
  | none => simp [ilikeContainsOpt]
  | some s => simp [ilikeContainsOpt, ilikeContains_iff]

/-- Spec side (§4.3): free-text `q` matches case-insensitively as a
substring of any of title, series, summary, writer or publisher. -/
def qMatchesSpec (s : String) (c : Comic) : Prop :=
  lowerChars s <:+: lowerChars c.title ∨
  (∃ t, c.series = some t ∧ lowerChars s <:+: lowerChars t) ∨
  (∃ t, c.summary = some t ∧ lowerChars s <:+: lowerChars t) ∨
  (∃ t, c.writer = some t ∧ lowerChars s <:+: lowerChars t) ∨
  (∃ t, c.publisher = some t ∧ lowerChars s <:+: lowerChars t)

/-- Spec side (§4.3): the compiled filter is the conjunction of exactly the
present filters — free-text OR over five fields, case-insensitive substring
filters on series/publisher/writer/genre, inclusive year bounds, and exact
equality on language, manga and age rating. -/
def matchesSpec (p : SearchParams) (c : Comic) : Prop :=
  (∀ s, p.q = some s → qMatchesSpec s c) ∧
  (∀ s, p.series = some s → ∃ t, c.series = some t ∧ lowerChars s <:+: lowerChars t) ∧
  (∀ s, p.publisher = some s → ∃ t, c.publisher = some t ∧ lowerChars s <:+: lowerChars t) ∧
  (∀ s, p.writer = some s → ∃ t, c.writer = some t ∧ lowerChars s <:+: lowerChars t) ∧
  (∀ s, p.genre = some s → ∃ t, c.genre = some t ∧ lowerChars s <:+: lowerChars t) ∧
  (∀ n, p.yearFrom = some n → ∃ y, c.year = some y ∧ n ≤ y) ∧
  (∀ n, p.yearTo = some n → ∃ y, c.year = some y ∧ y ≤ n) ∧
  (∀ s, p.language = some s → c.languageIso = some s) ∧
  (∀ s, p.manga = some s → c.manga = some s) ∧
  (∀ s, p.ageRating = some s → c.ageRating = some s)

/-- A truthy optional string filter holds on a row iff it holds for the
provided value. -/
theorem strFilter_all (v : Option String) (mk : String → Comic → Bool) (c : Comic)
    (hv : ∀ s, v = some s → s ≠ "") :
    ((strFilter v mk).all (fun f => f c) = true) ↔ ∀ s, v = some s → mk s c = true := by
  cases v with
  | none => simp [strFilter]
  | some s =>
    have hs : ¬(s == "") = true := by
      simpa using hv s rfl
    simp [strFilter, hs]

/-- A truthy optional integer filter holds on a row iff it holds for the
provided value. -/
theorem intFilter_all (v : Option Int) (mk : Int → Comic → Bool) (c : Comic)
    (hv : ∀ n, v = some n → n ≠ 0) :
    ((intFilter v mk).all (fun f => f c) = true) ↔ ∀ n, v = some n → mk n c = true := by
  cases v with
  | none => simp [intFilter]
  | some n =>
    have hn : ¬(n == 0) = true := by
      simpa using hv n rfl
    simp [intFilter, hn]

/-- The year lower-bound filter body, on an optional year column. -/
theorem optIntGe_iff (n : Int) (o : Option Int) :
    (match o with
     | none => false
     | some y => decide (n ≤ y)) = true ↔ ∃ y, o = some y ∧ n ≤ y := by
  cases o <;> simp

/-- The year upper-bound filter body, on an optional year column. -/
theorem optIntLe_iff (n : Int) (o : Option Int) :
    (match o with
     | none => false
     | some y => decide (y ≤ n)) = true ↔ ∃ y, o = some y ∧ y ≤ n := by
  cases o <;> simp

/-- The free-text filter body agrees with the spec's five-way OR. -/
theorem qFilter_iff (s : String) (c : Comic) :
    (ilikeContains c.title s || ilikeContainsOpt c.series s ||
     ilikeContainsOpt c.summary s || ilikeContainsOpt c.writer s ||
     ilikeContainsOpt c.publisher s) = true ↔ qMatchesSpec s c := by
  simp only [Bool.or_eq_true, ilikeContains_iff, ilikeContainsOpt_iff, qMatchesSpec]
  constructor
  · rintro ((((h | h) | h) | h) | h)
    · exact Or.inl h
    · exact Or.inr (Or.inl h)
    · exact Or.inr (Or.inr (Or.inl h))
    · exact Or.inr (Or.inr (Or.inr (Or.inl h)))
    · exact Or.inr (Or.inr (Or.inr (Or.inr h)))
  · rintro (h | h | h | h | h)
    · exact Or.inl (Or.inl (Or.inl (Or.inl h)))
    · exact Or.inl (Or.inl (Or.inl (Or.inr h)))
    · exact Or.inl (Or.inl (Or.inr h))
    · exact Or.inl (Or.inr h)
    · exact Or.inr h

/-- Claim C9: for parameters that are either absent or truthy, the compiled
filter is the conjunction of exactly the present filters, with free-text
`q` an OR of case-insensitive substring matches over title, series,
summary, writer and publisher, inclusive year bounds, and exact equality on
language, manga and age rating. -/
theorem search_filter_conjunction (p : SearchParams) (c : Comic)
    (hq : ∀ s, p.q = some s → s ≠ "")
    (hseries : ∀ s, p.series = some s → s ≠ "")
    (hpub : ∀ s, p.publisher = some s → s ≠ "")
    (hwriter : ∀ s, p.writer = some s → s ≠ "")
    (hgenre : ∀ s, p.genre = some s → s ≠ "")
    (hyf : ∀ n, p.yearFrom = some n → n ≠ 0)
    (hyt : ∀ n, p.yearTo = some n → n ≠ 0)
    (hlang : ∀ s, p.language = some s → s ≠ "")
    (hmanga : ∀ s, p.manga = some s → s ≠ "")
    (hage : ∀ s, p.ageRating = some s → s ≠ "") :
    comicMatches p c = true ↔ matchesSpec p c := by
  unfold comicMatches buildSearchQuery
  simp only [List.all_append, Bool.and_eq_true]
  rw [strFilter_all _ _ _ hq, strFilter_all _ _ _ hseries, strFilter_all _ _ _ hpub,
    strFilter_all _ _ _ hwriter, strFilter_all _ _ _ hgenre, intFilter_all _ _ _ hyf,
    intFilter_all _ _ _ hyt, strFilter_all _ _ _ hlang, strFilter_all _ _ _ hmanga,
    strFilter_all _ _ _ hage]
  simp only [qFilter_iff, ilikeContainsOpt_iff, beq_iff_eq, optIntGe_iff, optIntLe_iff]
  unfold matchesSpec
  tauto

def searchDemoParams : SearchParams := { q := some "Man", yearFrom := some 1990 }

def searchDemoComic : Comic := { emptyComic with id := 4, title := "Batman", year := some 2005 }

theorem search_filter_conjunction_witness :
    comicMatches searchDemoParams searchDemoComic = true ↔
      matchesSpec searchDemoParams searchDemoComic :=
  search_filter_conjunction searchDemoParams searchDemoComic
    (by intro s hs; simp [searchDemoParams] at hs; subst hs; decide)
    (by intro s hs; simp [searchDemoParams] at hs)
    (by intro s hs; simp [searchDemoParams] at hs)
    (by intro s hs; simp [searchDemoParams] at hs)
    (by intro s hs; simp [searchDemoParams] at hs)
    (by intro n hn; simp [searchDemoParams] at hn; subst hn; decide)
    (by intro n hn; simp [searchDemoParams] at hn)
    (by intro s hs; simp [searchDemoParams] at hs)
    (by intro s hs; simp [searchDemoParams] at hs)
    (by intro s hs; simp [searchDemoParams] at hs)

/-- Claim C10: a present-but-falsy filter parameter — the empty string for
any of the eight string parameters, the integer 0 for `year_from` or
`year_to` — is treated exactly as if the parameter were absent, both by the
compiled row predicate and by the full list endpoint. -/
theorem falsy_filter_treated_as_absent (db : List Comic) (p : SearchParams) (c : Comic) :
    listComics db { p with q := some "" } = listComics db { p with q := none } ∧
    comicMatches { p with q := some "" } c = comicMatches { p with q := none } c ∧
    comicMatches { p with series := some "" } c = comicMatches { p with series := none } c ∧
    comicMatches { p with publisher := some "" } c =
      comicMatches { p with publisher := none } c ∧
    comicMatches { p with writer := some "" } c = comicMatches { p with writer := none } c ∧
    comicMatches { p with genre := some "" } c = comicMatches { p with genre := none } c ∧
    comicMatches { p with yearFrom := some 0 } c =
      comicMatches { p with yearFrom := none } c ∧
    comicMatches { p with yearTo := some 0 } c = comicMatches { p with yearTo := none } c ∧
    comicMatches { p with language := some "" } c =
      comicMatches { p with language := none } c ∧
    comicMatches { p with manga := some "" } c = comicMatches { p with manga := none } c ∧
    comicMatches { p with ageRating := some "" } c =
      comicMatches { p with ageRating := none } c :=
  ⟨rfl, rfl, rfl, rfl, rfl, rfl, rfl, rfl, rfl, rfl, rfl⟩

/-- One field of a pydantic PATCH body: not provided at all, provided
explicitly as `null`, or provided with a value. -/
inductive PatchField (α : Type)
  | absent
  | null
  | value (a : α)
  deriving DecidableEq

/-- A field survives `model_dump(exclude_none=True)` precisely when it was
supplied with a non-null value. -/
def PatchField.isSet {α : Type} : PatchField α → Bool
  | .value _ => true
  | _ => false

/-- `setattr` step for a NOT NULL destination column: only a surviving
dumped field overwrites. -/
def PatchField.applyReq {α : Type} : PatchField α → α → α
  | .value v, _ => v
  | _, old => old

/-- `setattr` step for a nullable destination column. -/
def PatchField.applyOpt {α : Type} : PatchField α → Option α → Option α
  | .value v, _ => some v
  | _, old => old

/-- Explicit null becomes indistinguishable from omission (both are dropped
by `exclude_none=True`). -/
def PatchField.scrub {α : Type} : PatchField α → PatchField α
  | .null => .absent
  | f => f

/-- `ComicUpdate` (src/app/schemas/schemas.py): every field optional for
PATCH. -/
structure ComicUpdate where
  title : PatchField String := .absent
  series : PatchField String := .absent
  alternateSeries : PatchField String := .absent
  number : PatchField String := .absent
  count : PatchField Int := .absent
  volume : PatchField Int := .absent
  alternateNumber : PatchField String := .absent
  alternateCount : PatchField Int := .absent
  summary : PatchField String := .absent
  notes : PatchField String := .absent
  year : PatchField Int := .absent
  month : PatchField Int := .absent
  day : PatchField Int := .absent
  publisher : PatchField String := .absent
  imprint : PatchField String := .absent
  writer : PatchField String := .absent
  penciller : PatchField String := .absent
  inker : PatchField String := .absent
  colorist : PatchField String := .absent
  letterer : PatchField String := .absent
  coverArtist : PatchField String := .absent
  editor : PatchField String := .absent
  translator : PatchField String := .absent
  genre : PatchField String := .absent
  tags : PatchField String := .absent
  web : PatchField String := .absent
  ageRating : PatchField String := .absent
  languageIso : PatchField String := .absent
  format : PatchField String := .absent
  isBw : PatchField Bool := .absent
  manga : PatchField String := .absent
  communityRating : PatchField Rat := .absent
  review : PatchField String := .absent
  pageCount : PatchField Int := .absent
  coverUrl : PatchField String := .absent
  isbn : PatchField String := .absent
  barcode : PatchField String := .absent
  seriesGroup : PatchField String := .absent
  deriving DecidableEq

/-- The loop `for key, value in payload.model_dump(exclude_none=True).items():
setattr(comic, key, value)` of `update_comic` (src/app/api/comics.py). -/
def applyComicUpdate (c : Comic) (u : ComicUpdate) : Comic :=
  { c with
    title := u.title.applyReq c.title,
    series := u.series.applyOpt c.series,
    alternateSeries := u.alternateSeries.applyOpt c.alternateSeries,
    number := u.number.applyOpt c.number,
    count := u.count.applyOpt c.count,
    volume := u.volume.applyOpt c.volume,
    alternateNumber := u.alternateNumber.applyOpt c.alternateNumber,
    alternateCount := u.alternateCount.applyOpt c.alternateCount,
    summary := u.summary.applyOpt c.summary,
    notes := u.notes.applyOpt c.notes,
    year := u.year.applyOpt c.year,
    month := u.month.applyOpt c.month,
    day := u.day.applyOpt c.day,
    publisher := u.publisher.applyOpt c.publisher,
    imprint := u.imprint.applyOpt c.imprint,
    writer := u.writer.applyOpt c.writer,
    penciller := u.penciller.applyOpt c.penciller,
    inker := u.inker.applyOpt c.inker,
    colorist := u.colorist.applyOpt c.colorist,
    letterer := u.letterer.applyOpt c.letterer,
    coverArtist := u.coverArtist.applyOpt c.coverArtist,
    editor := u.editor.applyOpt c.editor,
    translator := u.translator.applyOpt c.translator,
    genre := u.genre.applyOpt c.genre,
    tags := u.tags.applyOpt c.tags,
    web := u.web.applyOpt c.web,
    ageRating := u.ageRating.applyOpt c.ageRating,
    languageIso := u.languageIso.applyOpt c.languageIso,
    format := u.format.applyOpt c.format,
    isBw := u.isBw.applyOpt c.isBw,
    manga := u.manga.applyOpt c.manga,
    communityRating := u.communityRating.applyOpt c.communityRating,
    review := u.review.applyOpt c.review,
    pageCount := u.pageCount.applyOpt c.pageCount,
    coverUrl := u.coverUrl.applyOpt c.coverUrl,
    isbn := u.isbn.applyOpt c.isbn,
    barcode := u.barcode.applyOpt c.barcode,
    seriesGroup := u.seriesGroup.applyOpt c.seriesGroup }

/-- Scrub every field of a PATCH body. -/
def scrubNulls (u : ComicUpdate) : ComicUpdate :=
  { title := u.title.scrub, series := u.series.scrub,
    alternateSeries := u.alternateSeries.scrub, number := u.number.scrub,
    count := u.count.scrub, volume := u.volume.scrub,
    alternateNumber := u.alternateNumber.scrub,
    alternateCount := u.alternateCount.scrub, summary := u.summary.scrub,
    notes := u.notes.scrub, year := u.year.scrub, month := u.month.scrub,
    day := u.day.scrub, publisher := u.publisher.scrub,
    imprint := u.imprint.scrub, writer := u.writer.scrub,
    penciller := u.penciller.scrub, inker := u.inker.scrub,
    colorist := u.colorist.scrub, letterer := u.letterer.scrub,
    coverArtist := u.coverArtist.scrub, editor := u.editor.scrub,
    translator := u.translator.scrub, genre := u.genre.scrub,
    tags := u.tags.scrub, web := u.web.scrub, ageRating := u.ageRating.scrub,
    languageIso := u.languageIso.scrub, format := u.format.scrub,
    isBw := u.isBw.scrub, manga := u.manga.scrub,
    communityRating := u.communityRating.scrub, review := u.review.scrub,
    pageCount := u.pageCount.scrub, coverUrl := u.coverUrl.scrub,
    isbn := u.isbn.scrub, barcode := u.barcode.scrub,
    seriesGroup := u.seriesGroup.scrub }

/-- `select(Comic).where(Comic.id == comic_id)` + `scalar_one_or_none` (ids
are unique). -/
def findComicById (db : List Comic) (comicId : Nat) : Option Comic :=
  db.find? (fun c => c.id == comicId)

/-- `update_comic` (src/app/api/comics.py): 404 when the id is absent, 403
when the caller is neither the recorded creator nor an admin, else the
patched record is written back. -/
def updateComic (db : List Comic) (comicId : Nat) (payload : ComicUpdate)
    (currentUser : User) : Except HTTPError (List Comic × Comic) :=
  match findComicById db comicId with
  | none => .error { statusCode := 404, detail := "Comic not found" }
  | some comic =>
    if !(comic.createdBy == some currentUser.id) && !currentUser.isAdmin then
      .error { statusCode := 403, detail := "Not allowed to edit this comic" }
    else
      let comic2 := applyComicUpdate comic payload
      .ok (db.map (fun c => if c.id == comicId then comic2 else c), comic2)

/-- `delete_comic` (src/app/api/comics.py): same 404/403 ladder, then the
row is removed. -/
def deleteComic (db : List Comic) (comicId : Nat) (currentUser : User) :
    Except HTTPError (List Comic) :=
  match findComicById db comicId with
  | none => .error { statusCode := 404, detail := "Comic not found" }
  | some comic =>
    if !(comic.createdBy == some currentUser.id) && !currentUser.isAdmin then
      .error { statusCode := 403, detail := "Not allowed to delete this comic" }
    else
      .ok (db.filter (fun c => !(c.id == comicId)))

/-- `Except` success test. -/
def exceptOk {ε α : Type} : Except ε α → Bool
  | .ok _ => true
  | .error _ => false

/-- Claim C4: id-addressed update and delete check existence before
ownership — missing id gives 404; an existing comic with a caller that is
neither the recorded creator nor an admin gives 403; the creator and any
admin both succeed. -/
theorem update_delete_404_before_403 (db : List Comic) (comicId : Nat)
    (payload : ComicUpdate) (u : User) :
    (findComicById db comicId = none →
      updateComic db comicId payload u =
        .error { statusCode := 404, detail := "Comic not found" } ∧
      deleteComic db comicId u =
        .error { statusCode := 404, detail := "Comic not found" }) ∧
    (∀ c, findComicById db comicId = some c →
      c.createdBy ≠ some u.id → u.isAdmin = false →
      updateComic db comicId payload u =
        .error { statusCode := 403, detail := "Not allowed to edit this comic" } ∧
      deleteComic db comicId u =
        .error { statusCode := 403, detail := "Not allowed to delete this comic" }) ∧
    (∀ c, findComicById db comicId = some c →
      (c.createdBy = some u.id ∨ u.isAdmin = true) →
      exceptOk (updateComic db comicId payload u) = true ∧
      exceptOk (deleteComic db comicId u) = true) := by
  refine ⟨?_, ?_, ?_⟩
  · intro h
    constructor
    · unfold updateComic
      rw [h]
    · unfold deleteComic
      rw [h]
  · intro c h hcb hadm
    have hcond : (!(c.createdBy == some u.id) && !u.isAdmin) = true := by
      simp [hcb, hadm]
    constructor
    · unfold updateComic
      rw [h]
      simp [hcond]
    · unfold deleteComic
      rw [h]
      simp [hcond]
  · intro c h hok
    have hcond : (!(c.createdBy == some u.id) && !u.isAdmin) = false := by
      rcases hok with h1 | h1 <;> simp [h1]
    constructor
    · unfold updateComic
      rw [h]
      simp [hcond, exceptOk]
    · unfold deleteComic
      rw [h]
      simp [hcond, exceptOk]

def ownedComic : Comic := { emptyComic with id := 10, title := "Owned", createdBy := some 1 }

def comicsDbOne : List Comic := [ownedComic]

def outsiderUser : User :=
  { id := 3, username := "eve", email := "e@example.com", hashedPassword := "h",
    isActive := true, isAdmin := false }

theorem update_delete_404_before_403_witness :
    exceptOk (updateComic comicsDbOne 10 {} demoUserOne) = true ∧
    updateComic comicsDbOne 10 {} outsiderUser =
      .error { statusCode := 403, detail := "Not allowed to edit this comic" } ∧
    updateComic comicsDbOne 99 {} demoUserOne =
      .error { statusCode := 404, detail := "Comic not found" } :=
  ⟨((update_delete_404_before_403 comicsDbOne 10 {} demoUserOne).2.2 ownedComic
      (by decide) (Or.inl (by decide))).1,
    ((update_delete_404_before_403 comicsDbOne 10 {} outsiderUser).2.1 ownedComic
      (by decide) (by decide) (by decide)).1,
    ((update_delete_404_before_403 comicsDbOne 99 {} demoUserOne).1 (by decide)).1⟩

theorem PatchField.applyReq_scrub {α : Type} (f : PatchField α) (x : α) :
    f.scrub.applyReq x = f.applyReq x := by
  cases f <;> rfl

theorem PatchField.applyOpt_scrub {α : Type} (f : PatchField α) (x : Option α) :
    f.scrub.applyOpt x = f.applyOpt x := by
  cases f <;> rfl

theorem PatchField.applyReq_of_not_set {α : Type} (f : PatchField α) (x : α)
    (h : f.isSet = false) : f.applyReq x = x := by
  cases f <;> simp_all [PatchField.isSet, PatchField.applyReq]

theorem PatchField.applyOpt_of_not_set {α : Type} (f : PatchField α) (x : Option α)
    (h : f.isSet = false) : f.applyOpt x = x := by
  cases f <;> simp_all [PatchField.isSet, PatchField.applyOpt]

/-- Claim C5: a PATCH changes only fields supplied with non-null values:
explicit null is indistinguishable from omission (scrubbing nulls yields
the same record), the id, bookkeeping and creator fields are untouched, and
every field not supplied with a value keeps its previous value. -/
theorem applyComicUpdate_frame (c : Comic) (u : ComicUpdate) :
    applyComicUpdate c u = applyComicUpdate c (scrubNulls u) ∧
    (applyComicUpdate c u).id = c.id ∧
    (applyComicUpdate c u).coverImagePath = c.coverImagePath ∧
    (applyComicUpdate c u).createdAt = c.createdAt ∧
    (applyComicUpdate c u).updatedAt = c.updatedAt ∧
    (applyComicUpdate c u).createdBy = c.createdBy ∧
    (u.title.isSet = false → (applyComicUpdate c u).title = c.title) ∧
    (u.series.isSet = false → (applyComicUpdate c u).series = c.series) ∧
    (u.alternateSeries.isSet = false →
      (applyComicUpdate c u).alternateSeries = c.alternateSeries) ∧
    (u.number.isSet = false → (applyComicUpdate c u).number = c.number) ∧
    (u.count.isSet = false → (applyComicUpdate c u).count = c.count) ∧
    (u.volume.isSet = false → (applyComicUpdate c u).volume = c.volume) ∧
    (u.alternateNumber.isSet = false →
      (applyComicUpdate c u).alternateNumber = c.alternateNumber) ∧
    (u.alternateCount.isSet = false →
      (applyComicUpdate c u).alternateCount = c.alternateCount) ∧
    (u.summary.isSet = false → (applyComicUpdate c u).summary = c.summary) ∧
    (u.notes.isSet = false → (applyComicUpdate c u).notes = c.notes) ∧
    (u.year.isSet = false → (applyComicUpdate c u).year = c.year) ∧
    (u.month.isSet = false → (applyComicUpdate c u).month = c.month) ∧
    (u.day.isSet = false → (applyComicUpdate c u).day = c.day) ∧
    (u.publisher.isSet = false → (applyComicUpdate c u).publisher = c.publisher) ∧
    (u.imprint.isSet = false → (applyComicUpdate c u).imprint = c.imprint) ∧
    (u.writer.isSet = false → (applyComicUpdate c u).writer = c.writer) ∧
    (u.penciller.isSet = false → (applyComicUpdate c u).penciller = c.penciller) ∧
    (u.inker.isSet = false → (applyComicUpdate c u).inker = c.inker) ∧
    (u.colorist.isSet = false → (applyComicUpdate c u).colorist = c.colorist) ∧
    (u.letterer.isSet = false → (applyComicUpdate c u).letterer = c.letterer) ∧
    (u.coverArtist.isSet = false →
      (applyComicUpdate c u).coverArtist = c.coverArtist) ∧
    (u.editor.isSet = false → (applyComicUpdate c u).editor = c.editor) ∧
    (u.translator.isSet = false → (applyComicUpdate c u).translator = c.translator) ∧
    (u.genre.isSet = false → (applyComicUpdate c u).genre = c.genre) ∧
    (u.tags.isSet = false → (applyComicUpdate c u).tags = c.tags) ∧
    (u.web.isSet = false → (applyComicUpdate c u).web = c.web) ∧
    (u.ageRating.isSet = false → (applyComicUpdate c u).ageRating = c.ageRating) ∧
    (u.languageIso.isSet = false →
      (applyComicUpdate c u).languageIso = c.languageIso) ∧
    (u.format.isSet = false → (applyComicUpdate c u).format = c.format) ∧
    (u.isBw.isSet = false → (applyComicUpdate c u).isBw = c.isBw) ∧
    (u.manga.isSet = false → (applyComicUpdate c u).manga = c.manga) ∧
    (u.communityRating.isSet = false →
      (applyComicUpdate c u).communityRating = c.communityRating) ∧
    (u.review.isSet = false → (applyComicUpdate c u).review = c.review) ∧
    (u.pageCount.isSet = false → (applyComicUpdate c u).pageCount = c.pageCount) ∧
    (u.coverUrl.isSet = false → (applyComicUpdate c u).coverUrl = c.coverUrl) ∧
    (u.isbn.isSet = false → (applyComicUpdate c u).isbn = c.isbn) ∧
    (u.barcode.isSet = false → (applyComicUpdate c u).barcode = c.barcode) ∧
    (u.seriesGroup.isSet = false →
      (applyComicUpdate c u).seriesGroup = c.seriesGroup) := by
  refine ⟨?_, rfl, rfl, rfl, rfl, rfl, ?_, ?_, ?_, ?_, ?_, ?_, ?_, ?_, ?_, ?_, ?_, ?_,
    ?_, ?_, ?_, ?_, ?_, ?_, ?_, ?_, ?_, ?_, ?_, ?_, ?_, ?_, ?_, ?_, ?_, ?_, ?_, ?_,
    ?_, ?_, ?_, ?_, ?_, ?_⟩
  · simp [applyComicUpdate, scrubNulls, PatchField.applyReq_scrub, PatchField.applyOpt_scrub]
  all_goals
    intro h
    first
    | exact PatchField.applyReq_of_not_set _ _ h
    | exact PatchField.applyOpt_of_not_set _ _ h

def summaryPatch : ComicUpdate := { summary := .value "Revised", title := .null }

def patchTarget : Comic :=
  { emptyComic with id := 11, title := "Watchmen", summary := some "Old" }

theorem applyComicUpdate_frame_witness :
    summaryPatch.title.isSet = false ∧
    (applyComicUpdate patchTarget summaryPatch).title = patchTarget.title ∧
    applyComicUpdate patchTarget summaryPatch =
      applyComicUpdate patchTarget (scrubNulls summaryPatch) :=
  ⟨by decide,
    (applyComicUpdate_frame patchTarget summaryPatch).2.2.2.2.2.2.1 (by decide),
    (applyComicUpdate_frame patchTarget summaryPatch).1⟩

/-- One XML child element: tag and text content. -/
structure XmlElem where
  tag : String
  text : String
  deriving DecidableEq

/-- `_add_if_present` (src/app/services/comicinfo.py): add a child element
only if the value is not None; the text is `str(value)`. -/
def addIfPresent (tag : String) (value : Option String) : List XmlElem :=
  match value with
  | none => []
  | some v => [{ tag := tag, text := v }]

/-- The `if comic.is_bw is not None:` block of `generate_comicinfo_xml`:
when the boolean is set it is rendered as the literal strings Yes/No. -/
def bwChildren (o : Option Bool) : List XmlElem :=
  match o with
  | none => []
  | some b => addIfPresent "BlackAndWhite" (some (if b then "Yes" else "No"))

/-- The children emitted by `generate_comicinfo_xml`, in the order the
source appends them.  Integer and rational values pass through `str`
(modelled by `toString`); `is_bw` renders as `"Yes"`/`"No"` when set; ISBN
and Barcode sit behind Python truthiness tests (`if comic.isbn:`), unlike
every other field. -/
def generateComicinfoChildren (c : Comic) : List XmlElem :=
  addIfPresent "Title" (some c.title) ++
  addIfPresent "Series" c.series ++
  addIfPresent "Number" c.number ++
  addIfPresent "Count" (c.count.map toString) ++
  addIfPresent "Volume" (c.volume.map toString) ++
  addIfPresent "AlternateSeries" c.alternateSeries ++
  addIfPresent "AlternateNumber" c.alternateNumber ++
  addIfPresent "AlternateCount" (c.alternateCount.map toString) ++
  addIfPresent "SeriesGroup" c.seriesGroup ++
  addIfPresent "Summary" c.summary ++
  addIfPresent "Notes" c.notes ++
  addIfPresent "Year" (c.year.map toString) ++
  addIfPresent "Month" (c.month.map toString) ++
  addIfPresent "Day" (c.day.map toString) ++
  addIfPresent "Publisher" c.publisher ++
  addIfPresent "Imprint" c.imprint ++
  addIfPresent "Writer" c.writer ++
  addIfPresent "Penciller" c.penciller ++
  addIfPresent "Inker" c.inker ++
  addIfPresent "Colorist" c.colorist ++
  addIfPresent "Letterer" c.letterer ++
  addIfPresent "CoverArtist" c.coverArtist ++
  addIfPresent "Editor" c.editor ++
  addIfPresent "Translator" c.translator ++
  addIfPresent "Genre" c.genre ++
  addIfPresent "Tags" c.tags ++
  addIfPresent "Web" c.web ++
  addIfPresent "Format" c.format ++
  addIfPresent "AgeRating" c.ageRating ++
  addIfPresent "LanguageISO" c.languageIso ++
  addIfPresent "Manga" c.manga ++
  bwChildren c.isBw ++
  addIfPresent "CommunityRating" (c.communityRating.map toString) ++
  addIfPresent "Review" c.review ++
  addIfPresent "PageCount" (c.pageCount.map toString) ++
  (if truthyStr c.isbn then addIfPresent "ISBN" c.isbn else []) ++
  (if truthyStr c.barcode then addIfPresent "Barcode" c.barcode else [])

/-- The exported document: a single `ComicInfo` root with two namespace
attributes and the children above (pretty-printing is plain
serialisation and is not modelled). -/
structure XmlDoc where
  rootTag : String
  attrs : List (String × String)
  children : List XmlElem
  deriving DecidableEq

/-- `generate_comicinfo_xml` (src/app/services/comicinfo.py). -/
def generateComicinfoXml (c : Comic) : XmlDoc :=
  { rootTag := "ComicInfo",
    attrs := [("xmlns:xsi", "http://www.w3.org/2001/XMLSchema-instance"),
              ("xmlns:xsd", "http://www.w3.org/2001/XMLSchema")],
    children := generateComicinfoChildren c }

/-- A comic whose ISBN is set to the empty string: a set optional field. -/
def isbnEmptyComic : Comic := { emptyComic with id := 20, title := "T", isbn := some "" }

/-- Claim C6 counterexample: `isbn` is set (to `""`) on this comic, yet the
export emits no ISBN child at all — the export does not produce one child
element per set field, because ISBN and Barcode are guarded by Python
truthiness rather than a not-None test. -/
theorem comicinfo_isbn_counterexample :
    isbnEmptyComic.isbn = some "" ∧
    (generateComicinfoChildren isbnEmptyComic).filter (fun e => e.tag == "ISBN") = [] ∧
    generateComicinfoChildren isbnEmptyComic = [{ tag := "Title", text := "T" }] := by
  decide

/-- One spec-described child: emitted exactly when the field is set, with a
per-field text rendering. -/
def specField {α : Type} (tag : String) (toText : α → String) : Option α → List XmlElem
  | none => []
  | some v => [{ tag := tag, text := toText v }]

/-- One amended-spec identifier child (ISBN, Barcode): emitted exactly when
the field is set to a non-empty string. -/
def specIdField (tag : String) : Option String → List XmlElem
  | none => []
  | some v => if v = "" then [] else [{ tag := tag, text := v }]

/-- The children as the amended claim describes them: one element per set
field in the fixed documented order, the black-and-white flag rendered as
the literal strings Yes/No when set, absent fields omitted entirely —
except ISBN and Barcode, which are emitted only when set to a non-empty
string. -/
def comicinfoChildrenSpec (c : Comic) : List XmlElem :=
  [{ tag := "Title", text := c.title }] ++
  specField "Series" id c.series ++
  specField "Number" id c.number ++
  specField "Count" toString c.count ++
  specField "Volume" toString c.volume ++
  specField "AlternateSeries" id c.alternateSeries ++
  specField "AlternateNumber" id c.alternateNumber ++
  specField "AlternateCount" toString c.alternateCount ++
  specField "SeriesGroup" id c.seriesGroup ++
  specField "Summary" id c.summary ++
  specField "Notes" id c.notes ++
  specField "Year" toString c.year ++
  specField "Month" toString c.month ++
  specField "Day" toString c.day ++
  specField "Publisher" id c.publisher ++
  specField "Imprint" id c.imprint ++
  specField "Writer" id c.writer ++
  specField "Penciller" id c.penciller ++
  specField "Inker" id c.inker ++
  specField "Colorist" id c.colorist ++
  specField "Letterer" id c.letterer ++
  specField "CoverArtist" id c.coverArtist ++
  specField "Editor" id c.editor ++
  specField "Translator" id c.translator ++
  specField "Genre" id c.genre ++
  specField "Tags" id c.tags ++
  specField "Web" id c.web ++
  specField "Format" id c.format ++
  specField "AgeRating" id c.ageRating ++
  specField "LanguageISO" id c.languageIso ++
  specField "Manga" id c.manga ++
  specField "BlackAndWhite" (fun b => if b then "Yes" else "No") c.isBw ++
  specField "CommunityRating" toString c.communityRating ++
  specField "Review" id c.review ++
  specField "PageCount" toString c.pageCount ++
  specIdField "ISBN" c.isbn ++
  specIdField "Barcode" c.barcode

theorem addIfPresent_some (tag v : String) :
    addIfPresent tag (some v) = [{ tag := tag, text := v }] :=
  rfl

theorem addIfPresent_eq_specField (tag : String) (o : Option String) :
    addIfPresent tag o = specField tag id o := by
  cases o <;> rfl

theorem addIfPresent_map_eq_specField {α : Type} (tag : String) (f : α → String)
    (o : Option α) : addIfPresent tag (o.map f) = specField tag f o := by
  cases o <;> rfl

theorem bwChildren_eq_specField (o : Option Bool) :
    bwChildren o = specField "BlackAndWhite" (fun b => if b then "Yes" else "No") o := by
  cases o <;> rfl

theorem truthyId_eq_specIdField (tag : String) (o : Option String) :
    (if truthyStr o then addIfPresent tag o else []) = specIdField tag o := by
  cases o with
  | none => rfl
  | some s =>
    by_cases hs : s = ""
    · subst hs
      rfl
    · have hb : (s == "") = false := by
        simpa using hs
      simp [truthyStr, specIdField, hb, hs, addIfPresent]

def watchmenComic : Comic := { emptyComic with id := 21, title := "Watchmen" }

/-- Claim C6 amended: the export is a single fixed `ComicInfo` root and its
children are exactly one element per set field in the documented order,
with BlackAndWhite rendered Yes/No when set and absent fields omitted —
except that ISBN and Barcode are additionally omitted when set to the
empty string; a comic with only `title="Watchmen"` set yields exactly one
populated-field element, a Title with that value. -/
theorem comicinfo_children_amended :
    (∀ c : Comic, (generateComicinfoXml c).rootTag = "ComicInfo" ∧
      (generateComicinfoXml c).children = comicinfoChildrenSpec c) ∧
    (generateComicinfoXml watchmenComic).children =
      [{ tag := "Title", text := "Watchmen" }] := by
  constructor
  · intro c
    refine ⟨rfl, ?_⟩
    show generateComicinfoChildren c = comicinfoChildrenSpec c
    unfold generateComicinfoChildren comicinfoChildrenSpec
    rw [addIfPresent_some "Title" c.title,
      addIfPresent_eq_specField "Series" c.series,
      addIfPresent_eq_specField "Number" c.number,
      addIfPresent_map_eq_specField "Count" toString c.count,
      addIfPresent_map_eq_specField "Volume" toString c.volume,
      addIfPresent_eq_specField "AlternateSeries" c.alternateSeries,
      addIfPresent_eq_specField "AlternateNumber" c.alternateNumber,
      addIfPresent_map_eq_specField "AlternateCount" toString c.alternateCount,
      addIfPresent_eq_specField "SeriesGroup" c.seriesGroup,
      addIfPresent_eq_specField "Summary" c.summary,
      addIfPresent_eq_specField "Notes" c.notes,
      addIfPresent_map_eq_specField "Year" toString c.year,
      addIfPresent_map_eq_specField "Month" toString c.month,
      addIfPresent_map_eq_specField "Day" toString c.day,
      addIfPresent_eq_specField "Publisher" c.publisher,
      addIfPresent_eq_specField "Imprint" c.imprint,
      addIfPresent_eq_specField "Writer" c.writer,
      addIfPresent_eq_specField "Penciller" c.penciller,
      addIfPresent_eq_specField "Inker" c.inker,
      addIfPresent_eq_specField "Colorist" c.colorist,
      addIfPresent_eq_specField "Letterer" c.letterer,
      addIfPresent_eq_specField "CoverArtist" c.coverArtist,
      addIfPresent_eq_specField "Editor" c.editor,
      addIfPresent_eq_specField "Translator" c.translator,
      addIfPresent_eq_specField "Genre" c.genre,
      addIfPresent_eq_specField "Tags" c.tags,
      addIfPresent_eq_specField "Web" c.web,
      addIfPresent_eq_specField "Format" c.format,
      addIfPresent_eq_specField "AgeRating" c.ageRating,
      addIfPresent_eq_specField "LanguageISO" c.languageIso,
      addIfPresent_eq_specField "Manga" c.manga,
      bwChildren_eq_specField c.isBw,
      addIfPresent_map_eq_specField "CommunityRating" toString c.communityRating,
      addIfPresent_eq_specField "Review" c.review,
      addIfPresent_map_eq_specField "PageCount" toString c.pageCount,
      truthyId_eq_specIdField "ISBN" c.isbn,
      truthyId_eq_specIdField "Barcode" c.barcode]
  · decide

/-- The caller's currently active key rows:
`select(ApiKey).where(ApiKey.user_id == uid, ApiKey.is_active == True)`. -/
def activeKeyCount (store : List ApiKey) (uid : Nat) : Nat :=
  (store.filter (fun k => k.userId == uid && k.isActive)).length

/-- The fresh row inserted by `create_api_key`: active, storing the hash of
the secret and its first 10 characters as display prefix. -/
def newApiKeyRow (uid newId : Nat) (name : String) (hashFn : String → String)
    (fullKey : String) (expiresAt : Option Int) (now : Int) : ApiKey :=
  { id := newId, userId := uid, name := name,
    keyHash := hashFn fullKey, keyPrefix := fullKey.take 10,
    isActive := true, lastUsedAt := none, createdAt := now,
    expiresAt := expiresAt }

/-- `create_api_key` (src/app/api/api_keys.py): rejected with the capacity
error when the caller already has 10 or more active keys, else the fresh
row is inserted.  The random secret and fresh row id are inputs; the first
component is the store after the call. -/
def createApiKey (store : List ApiKey) (hashFn : String → String)
    (currentUserId : Nat) (newId : Nat) (name : String) (fullKey : String)
    (expiresAt : Option Int) (now : Int) : List ApiKey × Except HTTPError ApiKey :=
  if 10 ≤ activeKeyCount store currentUserId then
    (store, .error { statusCode := 400, detail := "Maximum 10 active API keys per user" })
  else
    (store ++ [newApiKeyRow currentUserId newId name hashFn fullKey expiresAt now],
     .ok (newApiKeyRow currentUserId newId name hashFn fullKey expiresAt now))

/-- The per-row effect of the revoke UPDATE: the row found by
`ApiKey.id == key_id, ApiKey.user_id == current_user.id` gets
`is_active = False`. -/
def revokeOne (keyId uid : Nat) (k : ApiKey) : ApiKey :=
  if k.id == keyId && k.userId == uid then { k with isActive := false } else k

/-- `revoke_api_key` (src/app/api/api_keys.py): 404 when the caller owns no
such key, else the row is soft-disabled, never deleted. -/
def revokeApiKey (store : List ApiKey) (currentUserId : Nat) (keyId : Nat) :
    List ApiKey × Except HTTPError Unit :=
  match store.find? (fun k => k.id == keyId && k.userId == currentUserId) with
  | none => (store, .error { statusCode := 404, detail := "API key not found" })
  | some _ => (store.map (revokeOne keyId currentUserId), .ok ())

theorem activeKeyCount_append (store : List ApiKey) (k : ApiKey) (uid : Nat) :
    activeKeyCount (store ++ [k]) uid =
      activeKeyCount store uid + (k.userId == uid && k.isActive).toNat := by
  unfold activeKeyCount
  rw [← List.countP_eq_length_filter, ← List.countP_eq_length_filter, List.countP_append]
  cases h : (k.userId == uid && k.isActive) <;> simp [List.countP_cons, h]

theorem activeKeyCount_cons (x : ApiKey) (xs : List ApiKey) (uid : Nat) :
    activeKeyCount (x :: xs) uid =
      activeKeyCount xs uid + (x.userId == uid && x.isActive).toNat := by
  unfold activeKeyCount
  rw [← List.countP_eq_length_filter, ← List.countP_eq_length_filter, List.countP_cons]
  cases h : (x.userId == uid && x.isActive) <;> simp [h]

theorem activeKeyCount_revoke_le (store : List ApiKey) (uid keyId target : Nat) :
    activeKeyCount (store.map (revokeOne keyId uid)) target ≤
      activeKeyCount store target := by
  unfold activeKeyCount
  rw [← List.countP_eq_length_filter, ← List.countP_eq_length_filter, List.countP_map]
  apply List.countP_mono_left
  intro x _ hx
  simp only [Function.comp_apply] at hx
  unfold revokeOne at hx
  by_cases hc : (x.id == keyId && x.userId == uid) = true
  · rw [if_pos hc] at hx
    simp at hx
  · rwa [if_neg hc] at hx

theorem activeKeyCount_revoke_lt (store : List ApiKey) (uid keyId : Nat)
    (k : ApiKey) (hmem : k ∈ store) (hid : k.id = keyId) (huid : k.userId = uid)
    (hact : k.isActive = true) :
    activeKeyCount (store.map (revokeOne keyId uid)) uid < activeKeyCount store uid := by
  induction store with
  | nil => cases hmem
  | cons x xs ih =>
    rw [List.map_cons, activeKeyCount_cons, activeKeyCount_cons]
    rcases List.mem_cons.mp hmem with hx | hx
    · have hc : (x.id == keyId && x.userId == uid) = true := by
        rw [← hx]
        simp [hid, huid]
      have hpx : (x.userId == uid && x.isActive) = true := by
        rw [← hx]
        simp [huid, hact]
      have hpr : ((revokeOne keyId uid x).userId == uid &&
          (revokeOne keyId uid x).isActive) = false := by
        unfold revokeOne
        rw [if_pos hc]
        simp
      rw [hpx, hpr]
      have hle := activeKeyCount_revoke_le xs uid keyId uid
      simp only [Bool.toNat_false, Bool.toNat_true]
      omega
    · have hlt := ih hx
      have hle : ((revokeOne keyId uid x).userId == uid &&
          (revokeOne keyId uid x).isActive).toNat ≤
          (x.userId == uid && x.isActive).toNat := by
        unfold revokeOne
        by_cases hc : (x.id == keyId && x.userId == uid) = true
        · rw [if_pos hc]
          simp
        · rw [if_neg hc]
      omega

/-- Claim C7: creating a key for a caller with 10 or more active keys fails
with the capacity error and leaves the store unchanged; revoking sets the
key inactive without deleting any row; both operations preserve the
invariant of at most 10 simultaneously active keys per user; and a caller
at the 10-key cap who revokes one of their active keys can then create a
key successfully. -/
theorem api_key_cap_invariant (store : List ApiKey) (hashFn : String → String)
    (uid newId keyId : Nat) (name fullKey : String) (expiry : Option Int) (now : Int) :
    (10 ≤ activeKeyCount store uid →
      createApiKey store hashFn uid newId name fullKey expiry now =
        (store,
          .error { statusCode := 400, detail := "Maximum 10 active API keys per user" })) ∧
    ((revokeApiKey store uid keyId).1.length = store.length) ∧
    (∀ k ∈ store, k.id = keyId → k.userId = uid →
      ∃ k2 ∈ (revokeApiKey store uid keyId).1, k2.id = keyId ∧ k2.isActive = false) ∧
    ((∀ u2, activeKeyCount store u2 ≤ 10) →
      (∀ u2, activeKeyCount
        (createApiKey store hashFn uid newId name fullKey expiry now).1 u2 ≤ 10) ∧
      (∀ u2, activeKeyCount (revokeApiKey store uid keyId).1 u2 ≤ 10)) ∧
    (activeKeyCount store uid = 10 →
      ∀ k ∈ store, k.id = keyId → k.userId = uid → k.isActive = true →
        exceptOk
          (createApiKey (revokeApiKey store uid keyId).1 hashFn uid newId name fullKey
            expiry now).2 = true) := by
  refine ⟨?_, ?_, ?_, ?_, ?_⟩
  · intro hcap
    unfold createApiKey
    rw [if_pos hcap]
  · unfold revokeApiKey
    rcases hfind : store.find? (fun k => k.id == keyId && k.userId == uid) with _ | kf
    · rw [hfind]
    · rw [hfind]
      simp
  · intro k hmem hid huid
    have hsome : (store.find? (fun k2 => k2.id == keyId && k2.userId == uid)).isSome = true := by
      apply List.find?_isSome.2
      exact ⟨k, hmem, by simp [hid, huid]⟩
    unfold revokeApiKey
    rcases hf : store.find? (fun k2 => k2.id == keyId && k2.userId == uid) with _ | kf
    · rw [hf] at hsome
      simp at hsome
    · rw [hf]
      refine ⟨{ k with isActive := false }, ?_, hid, rfl⟩
      have hval : ({ k with isActive := false } : ApiKey) = revokeOne keyId uid k := by
        unfold revokeOne
        rw [if_pos (by simp [hid, huid])]
      rw [hval]
      exact List.mem_map_of_mem _ hmem
  · intro hinv
    constructor
    · intro u2
      unfold createApiKey
      by_cases hcap : 10 ≤ activeKeyCount store uid
      · rw [if_pos hcap]
        exact hinv u2
      · rw [if_neg hcap]
        show activeKeyCount
          (store ++ [newApiKeyRow uid newId name hashFn fullKey expiry now]) u2 ≤ 10
        rw [activeKeyCount_append]
        by_cases hu : uid = u2
        · subst hu
          have hrow : ((newApiKeyRow uid newId name hashFn fullKey expiry now).userId == uid &&
              (newApiKeyRow uid newId name hashFn fullKey expiry now).isActive) = true := by
            simp [newApiKeyRow]
          rw [hrow]
          simp only [Bool.toNat_true]
          omega
        · have hrow : ((newApiKeyRow uid newId name hashFn fullKey expiry now).userId == u2 &&
              (newApiKeyRow uid newId name hashFn fullKey expiry now).isActive) = false := by
            simp [newApiKeyRow, hu]
          rw [hrow]
          simpa using hinv u2
    · intro u2
      unfold revokeApiKey
      rcases hf : store.find? (fun k2 => k2.id == keyId && k2.userId == uid) with _ | kf
      · rw [hf]
        exact hinv u2
      · rw [hf]
        exact le_trans (activeKeyCount_revoke_le store uid keyId u2) (hinv u2)
  · intro hcap k hmem hid huid hact
    have hsome : (store.find? (fun k2 => k2.id == keyId && k2.userId == uid)).isSome = true := by
      apply List.find?_isSome.2
      exact ⟨k, hmem, by simp [hid, huid]⟩
    unfold revokeApiKey
    rcases hf : store.find? (fun k2 => k2.id == keyId && k2.userId == uid) with _ | kf
    · rw [hf] at hsome
      simp at hsome
    · rw [hf]
      show exceptOk
        (createApiKey (store.map (revokeOne keyId uid)) hashFn uid newId name fullKey
          expiry now).2 = true
      have hlt := activeKeyCount_revoke_lt store uid keyId k hmem hid huid hact
      have hnotcap : ¬ 10 ≤ activeKeyCount (store.map (revokeOne keyId uid)) uid := by
        omega
      unfold createApiKey
      rw [if_neg hnotcap]
      rfl

def capKey : ApiKey :=
  { id := 5, userId := 1, name := "k", keyHash := "caphash", keyPrefix := "caphash",
    isActive := true, lastUsedAt := none, createdAt := 0, expiresAt := none }

def capStore : List ApiKey := List.replicate 10 capKey

theorem api_key_cap_invariant_witness :
    activeKeyCount capStore 1 = 10 ∧
    createApiKey capStore demoHash 1 99 "new" "mng_secret" none 0 =
      (capStore,
        .error { statusCode := 400, detail := "Maximum 10 active API keys per user" }) ∧
    exceptOk
      (createApiKey (revokeApiKey capStore 1 5).1 demoHash 1 99 "new" "mng_secret"
        none 0).2 = true :=
  ⟨by decide,
    (api_key_cap_invariant capStore demoHash 1 99 5 "new" "mng_secret" none 0).1
      (by decide),
    (api_key_cap_invariant capStore demoHash 1 99 5 "new" "mng_secret" none 0).2.2.2.2
      (by decide) capKey (by decide) (by decide) (by decide) (by decide)⟩

/-- The error SQLAlchemy raises out of `scalar_one_or_none` when the query
returns more than one row; it is not an `HTTPException`, so FastAPI turns
it into an untyped 500 response. -/
inductive DbError
  | multipleResultsFound
  deriving DecidableEq

/-- SQLAlchemy `scalar_one_or_none`: `None` for no rows, the row for
exactly one, `MultipleResultsFound` for more. -/
def scalarOneOrNone {α : Type} : List α → Except DbError (Option α)
  | [] => .ok none
  | [x] => .ok (some x)
  | _ => .error .multipleResultsFound

/-- What `register` can raise: a typed `HTTPException` or the database
error that escapes untyped. -/
inductive RegisterError
  | http (e : HTTPError)
  | db (e : DbError)
  deriving DecidableEq

/-- `UserRegister` (src/app/schemas/schemas.py). -/
structure UserRegister where
  username : String
  email : String
  password : String
  deriving DecidableEq

/-- The fresh `User` row inserted by a successful registration. -/
def newUserRow (hashPw : String → String) (newId : Nat) (payload : UserRegister) : User :=
  { id := newId, username := payload.username, email := payload.email,
    hashedPassword := hashPw payload.password, isActive := true, isAdmin := false }

/-- `register` (src/app/api/auth.py): one query for rows matching
`username == payload.username OR email == payload.email`, collapsed with
`scalar_one_or_none`; a found row is classified as username- or
email-conflict; otherwise the user is inserted.  Password hashing (bcrypt)
and the fresh id are inputs. -/
def register (db : List User) (hashPw : String → String) (newId : Nat)
    (payload : UserRegister) : Except RegisterError (List User × User) :=
  match scalarOneOrNone (db.filter (fun u =>
      u.username == payload.username || u.email == payload.email)) with
  | .error e => .error (.db e)
  | .ok (some existing) =>
    if existing.username == payload.username then
      .error (.http { statusCode := 400, detail := "Username already taken" })
    else
      .error (.http { statusCode := 400, detail := "Email already registered" })
  | .ok none =>
    .ok (db ++ [newUserRow hashPw newId payload], newUserRow hashPw newId payload)

/-- Two distinct users so that a registration can collide with the
username of one and the email of the other. -/
def crossDb : List User :=
  [demoUserOne, demoUserTwo]

/-- Claim C8 (code bug): a single-row conflict is classified as a typed
username/email conflict, but when the requested username and email are
taken by two different existing users the OR-query returns two rows and
`scalar_one_or_none` raises `MultipleResultsFound` — an untyped error, not
the typed conflict the claim requires. -/
theorem register_cross_conflict_untyped :
    register crossDb demoHash 9
        { username := "alice", email := "b@example.com", password := "pw" } =
      .error (.db .multipleResultsFound) ∧
    register crossDb demoHash 9
        { username := "alice", email := "fresh@example.com", password := "pw" } =
      .error (.http { statusCode := 400, detail := "Username already taken" }) ∧
    register crossDb demoHash 9
        { username := "fresh", email := "b@example.com", password := "pw" } =
      .error (.http { statusCode := 400, detail := "Email already registered" }) := by
  refine ⟨?_, ?_, ?_⟩ <;> rfl

end Mangable
